import Mathlib

/-
  Verification of the VibeSync frontend wizard (video-to-soundtrack UI).

  Shallow embedding of:
  - the HTTP client (src/frontend/src/lib/api.ts),
  - the step controller `Home` (src/frontend/src/app/page.tsx),
  - the upload validator (`VideoUpload` component),
  - the variation picker (`VariationPicker` component).

  Browser/network effects are made explicit: each async handler takes the
  outcome of its network call as an argument (an `Except` value: `.ok` for a
  resolving promise, `.error msg` for a rejection whose caught message is
  `msg`), and the requests a handler issues are returned as data so that
  theorems can speak about which calls were made and with which payloads.
-/

namespace VibeSync

/-! ## Data model (interfaces of src/frontend/src/lib/api.ts) -/

structure VideoSegment where
  start_seconds : ℚ
  end_seconds : ℚ
  energy : String
  mood : String
  visual_description : String
  musical_suggestion : String
deriving DecidableEq, Repr

structure AudioProfile where
  has_speech : Bool
  has_ambient_sound : Bool
  is_silent : Bool
  recommended_mix : String
  mix_reasoning : String
deriving DecidableEq, Repr

structure StyleSuggestion where
  label : String
  modifier : String
deriving DecidableEq, Repr

structure VideoAnalysis where
  bpm : Int
  key : String
  overall_mood : String
  energy_arc : String
  audio_profile : AudioProfile
  segments : List VideoSegment
  style_suggestions : List StyleSuggestion
  primary_prompt : String
  negative_prompt : String
  reasoning : String
deriving DecidableEq, Repr

structure MusicVariation where
  file_id : String
  audio_url : String
  style_label : String
  duration_seconds : ℚ
deriving DecidableEq, Repr

structure VariationsResult where
  variations : List MusicVariation
deriving DecidableEq, Repr

structure MergeResult where
  video_url : String
  duration_seconds : ℚ
deriving DecidableEq, Repr

/-- Body of the credits endpoints' 2xx responses: `{credits: number}`. -/
structure CreditsBody where
  credits : Int
deriving DecidableEq, Repr

/-- A browser `File`: declared name, declared MIME type, size in bytes. -/
structure File where
  name : String
  type : String
  size : Nat
deriving DecidableEq, Repr

/-! ## HTTP client (src/frontend/src/lib/api.ts) -/

/-- Outcome of a `fetch` of an endpoint whose parsed 2xx body has type `β`:
either the fetch promise itself rejects (network exception carrying a
message), or an HTTP response arrives with an `ok` flag (2xx or not) and a
`res.json()` outcome (`.error` = unparsable body, rejecting with a message). -/
inductive FetchResult (β : Type) where
  | thrown (msg : String)
  | resp (ok : Bool) (json : Except String β)
deriving Repr

/-- `getCredits` from api.ts:
`if (!res.ok) return 0; const data = await res.json(); return data.credits;`
A network exception rethrows out of the async function (there is no
try/catch), and `res.json()` of an ok response rethrows on parse failure. -/
def getCredits (userToken : String) (r : FetchResult CreditsBody) :
    Except String Int :=
  match r with
  | .thrown m => .error m
  | .resp ok json =>
    if !ok then .ok 0
    else
      match json with
      | .ok data => .ok data.credits
      | .error m => .error m

/-- `initializeCredits` from api.ts: same body shape as `getCredits`
(the request differs: POST `/api/credits/initialize`). -/
def initializeCredits (userToken : String) (r : FetchResult CreditsBody) :
    Except String Int :=
  match r with
  | .thrown m => .error m
  | .resp ok json =>
    if !ok then .ok 0
    else
      match json with
      | .ok data => .ok data.credits
      | .error m => .error m

/-- The request `analyzeVideo` issues: POST `/api/video/analyze`, multipart
file, with the `x-user-id` header. -/
structure AnalyzeRequest where
  url : String
  file : File
  headers : List (String × String)
deriving DecidableEq, Repr

def analyzeVideoRequest (file : File) (userToken : String) : AnalyzeRequest :=
  { url := "/api/video/analyze"
    file := file
    headers := [("x-user-id", userToken)] }

/-- The request `mergeVideoAudio` issues: POST `/api/music/merge`, multipart
video + file_id + mix_mode + segments_json. Its `fetch` passes no `headers`
field at all, so in particular no `x-user-id` header. -/
structure MergeRequest where
  url : String
  video : File
  file_id : String
  mix_mode : String
  segments : List VideoSegment
  headers : List (String × String)
deriving DecidableEq, Repr

def mergeVideoAudioRequest (videoFile : File) (fileId : String)
    (mixMode : String) (segments : List VideoSegment) : MergeRequest :=
  { url := "/api/music/merge"
    video := videoFile
    file_id := fileId
    mix_mode := mixMode
    segments := segments
    headers := [] }

/-! ## Step controller (`Home` in src/frontend/src/app/page.tsx) -/

inductive Step where
  | upload
  | analyzing
  | edit
  | generating
  | pick
  | merging
  | done
deriving DecidableEq, Repr

/-- The `useState` fields of `Home`, with their initial values mirrored in
`initialHomeState`. -/
structure HomeState where
  step : Step
  videoFile : Option File
  videoUrl : String
  analysis : Option VideoAnalysis
  prompt : String
  negativePrompt : String
  bpm : Int
  variations : List MusicVariation
  selectedVariation : Option MusicVariation
  mergedVideoUrl : String
  error : String
  credits : Option Int
deriving DecidableEq, Repr

def initialHomeState : HomeState :=
  { step := .upload
    videoFile := none
    videoUrl := ""
    analysis := none
    prompt := ""
    negativePrompt := ""
    bpm := 120
    variations := []
    selectedVariation := none
    mergedVideoUrl := ""
    error := ""
    credits := none }

/-- Model of `URL.createObjectURL`: some preview URL derived from the file.
The controller only stores and displays it, so its exact shape is
unobservable; what matters is that `handleUpload` overwrites `videoUrl`
with it. -/
def createObjectURL (f : File) : String := "blob:" ++ f.name

/-- `handleUpload` from page.tsx. It eagerly stores the file and its preview
URL, clears the error and enters `analyzing`, then awaits
`analyzeVideo(file, userId)` whose outcome is `result`. On resolve it stores
the analysis, seeds prompt/negativePrompt/bpm from it and enters `edit`; on
reject it records the caught message and sets the step to `upload`. -/
def handleUpload (s : HomeState) (file : File)
    (result : Except String VideoAnalysis) : HomeState :=
  let s1 : HomeState :=
    { s with
      videoFile := some file
      videoUrl := createObjectURL file
      error := ""
      step := .analyzing }
  match result with
  | .ok r =>
    { s1 with
      analysis := some r
      prompt := r.primary_prompt
      negativePrompt := r.negative_prompt
      bpm := r.bpm
      step := .edit }
  | .error e =>
    { s1 with error := e, step := .upload }

/-- `handleGenerate` from page.tsx. No-op when `analysis` is null. Otherwise
clears the error, enters `generating`, and awaits
`generateVariations(...)` whose outcome is `genResult`. On resolve it stores
the variations and then awaits `refreshCredits()` — whose body is
`setCredits(await getCredits(userId))` — INSIDE the same try block;
`creditsResult` is that `getCredits` outcome. Only if the refresh also
resolves does the step become `pick`; any rejection (of the generate call or
of the awaited refresh) lands in the catch, which records the message and
sets the step to `edit`. -/
def handleGenerate (s : HomeState)
    (genResult : Except String VariationsResult)
    (creditsResult : Except String Int) : HomeState :=
  match s.analysis with
  | none => s
  | some _ =>
    let s1 : HomeState := { s with error := "", step := .generating }
    match genResult with
    | .error e => { s1 with error := e, step := .edit }
    | .ok r =>
      let s2 : HomeState := { s1 with variations := r.variations }
      match creditsResult with
      | .error e => { s2 with error := e, step := .edit }
      | .ok c => { s2 with credits := some c, step := .pick }

/-- `handlePickVariation` from page.tsx. No-op (and no request) when the
video file or the analysis is null. Otherwise clears the error, records the
selection, enters `merging`, and issues
`mergeVideoAudio(videoFile, variation.file_id, "social", analysis.segments)`
whose outcome is `result`. Returns the new state together with the merge
request issued (if any). -/
def handlePickVariation (s : HomeState) (variation : MusicVariation)
    (result : Except String MergeResult) : HomeState × Option MergeRequest :=
  match s.videoFile, s.analysis with
  | some f, some a =>
    let s1 : HomeState :=
      { s with
        error := ""
        selectedVariation := some variation
        step := .merging }
    let req := mergeVideoAudioRequest f variation.file_id "social" a.segments
    match result with
    | .ok r => ({ s1 with mergedVideoUrl := r.video_url, step := .done }, some req)
    | .error e => ({ s1 with error := e, step := .pick }, some req)
  | _, _ => (s, none)

/-- `handleReset` from page.tsx: sets every domain field back to its initial
value (the `credits` badge is not touched). -/
def handleReset (s : HomeState) : HomeState :=
  { s with
    step := .upload
    videoFile := none
    videoUrl := ""
    analysis := none
    prompt := ""
    negativePrompt := ""
    bpm := 120
    variations := []
    selectedVariation := none
    mergedVideoUrl := ""
    error := "" }

/-! ## Upload validator (`VideoUpload` component, src/unnamed/part_000) -/

def MAX_SIZE_MB : Nat := 50
def MAX_DURATION_S : Nat := 30
def ALLOWED_TYPES : List String :=
  ["video/mp4", "video/quicktime", "video/webm", "video/x-msvideo"]

/-- `validate` from the `VideoUpload` component: returns the rejection
message, or `none` on pass. The size test in the source is
`file.size / (1024 * 1024) > MAX_SIZE_MB` in JavaScript's real-number
arithmetic, embedded here as the same comparison over `ℚ`. -/
def validate (file : File) : Option String :=
  if file.type ∉ ALLOWED_TYPES then
    some "Unsupported format. Use MP4, MOV, WebM, or AVI."
  else if (file.size : ℚ) / (1024 * 1024) > (MAX_SIZE_MB : ℚ) then
    some ("File too large. Maximum is " ++ toString MAX_SIZE_MB ++ "MB.")
  else none

/-- JavaScript's `Math.round` on a non-negative number: floor of `x + 1/2`. -/
def jsRound (q : ℚ) : Int := ⌊q + 1 / 2⌋

/-- The message `checkDuration` displays for an overlong video:
``Video is ${Math.round(video.duration)}s. Maximum is ${MAX_DURATION_S}s.`` -/
def durationErrorMsg (duration : ℚ) : String :=
  "Video is " ++ toString (jsRound duration) ++ "s. Maximum is " ++
    toString MAX_DURATION_S ++ "s."

/-- Observable outcome of running `handleFile` on a file: the final
`validationError` string (`""` when no check failed), whether the metadata
probe (`checkDuration`'s hidden video element) ran, and the `onUpload`
invocations made. -/
structure UploadTrace where
  validationError : String
  durationProbed : Bool
  uploadCalls : List File
deriving DecidableEq, Repr

/-- The `onloadedmetadata` body of `checkDuration`: given the probed
duration, either set the overlong-duration error or call `onUpload(file)`. -/
def checkDuration (file : File) (duration : ℚ) : UploadTrace :=
  if duration > (MAX_DURATION_S : ℚ) then
    { validationError := durationErrorMsg duration
      durationProbed := true
      uploadCalls := [] }
  else
    { validationError := ""
      durationProbed := true
      uploadCalls := [file] }

/-- `handleFile` from `VideoUpload`: clear the error, run `validate`; on a
validation error set it and return (no probe, no upload); otherwise probe
the duration via `checkDuration`. -/
def handleFile (file : File) (duration : ℚ) : UploadTrace :=
  match validate file with
  | some err =>
    { validationError := err, durationProbed := false, uploadCalls := [] }
  | none => checkDuration file duration

/-- The analyze requests resulting from a `handleFile` run: `onUpload` is
wired to the controller's `handleUpload`, which issues exactly one
`analyzeVideo(file, userId)` request per invocation. -/
def analyzeCalls (t : UploadTrace) (userToken : String) : List AnalyzeRequest :=
  t.uploadCalls.map (fun f => analyzeVideoRequest f userToken)

/-- `msg` contains `sub` as a substring. -/
def containsStr (msg sub : String) : Prop :=
  ∃ pre post, msg = pre ++ sub ++ post

/-! ## Variation picker (`VariationPicker` component, src/unnamed/part_000) -/

/-- The `useState` fields of `VariationPicker`: which variation is playing
(by file identifier) and which is selected (by file identifier). -/
structure PickerState where
  playing : Option String
  selected : String
deriving DecidableEq, Repr

/-- Initial picker state: `playing` is null and `selected` is
`variations[0]?.file_id || ""`. Since the empty string is the only falsy
string, the JS `|| ""` coincides with defaulting the missing head to `""`. -/
def initPicker (variations : List MusicVariation) : PickerState :=
  { playing := none
    selected := (variations.head?.map MusicVariation.file_id).getD "" }

/-- `togglePlay` from `VariationPicker`: clicking the playing variation
pauses it (selection untouched); clicking any other starts it and also
selects it. -/
def togglePlay (s : PickerState) (variation : MusicVariation) : PickerState :=
  if s.playing = some variation.file_id then
    { s with playing := none }
  else
    { playing := some variation.file_id, selected := variation.file_id }

/-- `handleSelect` from `VariationPicker`: find the variation whose
`file_id` equals the current selection and pass it to `onPick`; returns the
variation handed to `onPick`, `none` when the confirm is a no-op. -/
def handleSelect (variations : List MusicVariation) (s : PickerState) :
    Option MusicVariation :=
  match variations.find? (fun v => v.file_id == s.selected) with
  | some v => some v
  | none => none

/-- Invariant: the selection is the empty string or the file identifier of
a member of the variation list. -/
def SelectedInList (variations : List MusicVariation) (s : PickerState) : Prop :=
  s.selected = "" ∨ ∃ v ∈ variations, v.file_id = s.selected

/-- Invariant: whenever some variation is playing, it is the selected one. -/
def PlayingSelected (s : PickerState) : Prop :=
  ∀ p, s.playing = some p → s.selected = p

/-! ## Concrete sample data (used by witnesses and counterexamples) -/

def sampleProfile : AudioProfile :=
  { has_speech := true
    has_ambient_sound := false
    is_silent := false
    recommended_mix := "social"
    mix_reasoning := "speech detected" }

def sampleSegment : VideoSegment :=
  { start_seconds := 0
    end_seconds := 6
    energy := "high"
    mood := "upbeat"
    visual_description := "city at dusk"
    musical_suggestion := "driving synth arps" }

def sampleAnalysis : VideoAnalysis :=
  { bpm := 128
    key := "C minor"
    overall_mood := "energetic"
    energy_arc := "build"
    audio_profile := sampleProfile
    segments := [sampleSegment]
    style_suggestions := [{ label := "Synthwave", modifier := "retro analog" }]
    primary_prompt := "energetic synthwave"
    negative_prompt := "no vocals"
    reasoning := "fast cuts" }

def sampleFile : File :=
  { name := "clip.mp4", type := "video/mp4", size := 10485760 }

def sampleVariation : MusicVariation :=
  { file_id := "track-1"
    audio_url := "http://localhost:8000/api/music/download/track-1/mp3"
    style_label := "Original"
    duration_seconds := 30 }

/-- A controller state at the `edit` step, as produced by a successful
upload/analyze round trip. -/
def editState : HomeState :=
  handleUpload initialHomeState sampleFile (.ok sampleAnalysis)

/-- A controller state at the `pick` step, as produced by a successful
generate call. -/
def pickState : HomeState :=
  handleGenerate editState (.ok { variations := [sampleVariation] }) (.ok 2)

def samplePicker : PickerState := initPicker [sampleVariation]

def sampleMerge : MergeResult :=
  { video_url := "http://localhost:8000/out.mp4", duration_seconds := 12 }

def samplePng : File := { name := "pic.png", type := "image/png", size := 1000 }

/-! ## Theorems -/

/-- C1: for every failed generate call, the controller state after the
failure equals the state before the call except for the added error message
and the step having returned to `edit`: the prompt, negative prompt, BPM,
the variation sequence, the analysis, the video file, and the selection are
unchanged. -/
theorem generate_failure_only_adds_error (s : HomeState) (a : VideoAnalysis)
    (msg : String) (creditsResult : Except String Int)
    (h : s.analysis = some a) :
    handleGenerate s (.error msg) creditsResult =
      { s with error := msg, step := Step.edit } := by
  simp [handleGenerate, h]

/-- Witness for C1 at a concrete edit-step state. -/
theorem generate_failure_only_adds_error_witness :
    editState.analysis = some sampleAnalysis ∧
    handleGenerate editState (.error "Music generation failed") (.ok 2) =
      { editState with error := "Music generation failed", step := Step.edit } :=
  ⟨rfl, generate_failure_only_adds_error editState sampleAnalysis
    "Music generation failed" (.ok 2) rfl⟩

/-- C2 counterexample: a failed analyze call does NOT leave the stored video
file at its pre-intent value — `handleUpload` stores the file before the
call and never reverts it on rejection. -/
theorem upload_failure_mutates_video_file :
    (handleUpload initialHomeState sampleFile (.error "Analysis failed")).videoFile ≠
      initialHomeState.videoFile := by
  simp [handleUpload, initialHomeState]

/-- C2 amended: when the analyze call rejects, the controller surfaces the
error and returns the step to `upload`; the analysis, prompt, negative
prompt, BPM, variations, selection, merged URL and credits are unchanged,
but the video file and preview URL retain the values stored at intent time
(they are not reverted to their pre-intent values). -/
theorem upload_failure_state (s : HomeState) (file : File) (msg : String) :
    handleUpload s file (.error msg) =
      { s with
        videoFile := some file
        videoUrl := createObjectURL file
        error := msg
        step := Step.upload } := rfl

/-- C3 counterexample: on a network exception the fetch promise rejects and
`getCredits` rethrows it rather than returning zero. -/
theorem getCredits_throws_on_network_exception :
    getCredits "anonymous" (.thrown "Failed to fetch") ≠ Except.ok 0 := by
  simp [getCredits]

/-- C3 amended: `getCredits` and `initializeCredits` return zero exactly
when the response is non-2xx; a network exception, or an unparsable body of
a 2xx response, propagates out as a thrown error. -/
theorem credits_endpoints_failure_behavior (userToken : String)
    (json : Except String CreditsBody) (m : String) :
    getCredits userToken (.resp false json) = .ok 0 ∧
    initializeCredits userToken (.resp false json) = .ok 0 ∧
    getCredits userToken (.thrown m) = .error m ∧
    initializeCredits userToken (.thrown m) = .error m ∧
    getCredits userToken (.resp true (.error m)) = .error m ∧
    initializeCredits userToken (.resp true (.error m)) = .error m :=
  ⟨rfl, rfl, rfl, rfl, rfl, rfl⟩

/-- C4 counterexample: when the generate call resolves but the credits
refresh throws (network exception), the failure IS surfaced as a flow error
and the step does NOT transition to `pick` — the `await refreshCredits()`
sits inside `handleGenerate`'s try block. -/
theorem generate_refresh_throw_blocks_pick :
    (handleGenerate editState (.ok { variations := [sampleVariation] })
        (getCredits "anonymous" (.thrown "Failed to fetch"))).step ≠ Step.pick ∧
    (handleGenerate editState (.ok { variations := [sampleVariation] })
        (getCredits "anonymous" (.thrown "Failed to fetch"))).error ≠ "" := by
  constructor <;>
    simp [handleGenerate, getCredits, editState, handleUpload, initialHomeState]

/-- C4 amended: after a successful generate call the credits refresh is
best-effort only in the non-2xx case — `getCredits` then returns 0 without
throwing, no error is surfaced, and the step transitions to `pick` with the
variations stored; but when the credits fetch throws (network exception),
the generate catch block surfaces the error and returns the step to `edit`
(the variations remain stored). -/
theorem generate_refresh_best_effort (s : HomeState) (a : VideoAnalysis)
    (userToken : String) (r : VariationsResult)
    (json : Except String CreditsBody) (m : String)
    (h : s.analysis = some a) :
    handleGenerate s (.ok r) (getCredits userToken (.resp false json)) =
      { s with error := "", variations := r.variations, credits := some 0,
               step := Step.pick } ∧
    handleGenerate s (.ok r) (getCredits userToken (.thrown m)) =
      { s with error := m, variations := r.variations, step := Step.edit } := by
  constructor <;> simp [handleGenerate, getCredits, h]

/-- Witness for C4 (amended) at a concrete edit-step state. -/
theorem generate_refresh_best_effort_witness :
    editState.analysis = some sampleAnalysis ∧
    handleGenerate editState (.ok { variations := [sampleVariation] })
        (getCredits "anonymous" (.resp false (.ok { credits := 2 }))) =
      { editState with error := "", variations := [sampleVariation],
                       credits := some 0, step := Step.pick } ∧
    handleGenerate editState (.ok { variations := [sampleVariation] })
        (getCredits "anonymous" (.thrown "Failed to fetch")) =
      { editState with error := "Failed to fetch",
                       variations := [sampleVariation], step := Step.edit } := by
  refine ⟨rfl, ?_, ?_⟩
  · exact (generate_refresh_best_effort editState sampleAnalysis "anonymous"
      { variations := [sampleVariation] } (.ok { credits := 2 })
      "Failed to fetch" rfl).1
  · exact (generate_refresh_best_effort editState sampleAnalysis "anonymous"
      { variations := [sampleVariation] } (.ok { credits := 2 })
      "Failed to fetch" rfl).2

/-- C5: from every controller state, the reset intent clears the video
file, preview URL, analysis, prompt, negative prompt, BPM (back to the
default 120), variation sequence, selection, merged export URL and error
message, and sets the step to `upload`. -/
theorem reset_clears_everything (s : HomeState) :
    (handleReset s).step = Step.upload ∧
    (handleReset s).videoFile = none ∧
    (handleReset s).videoUrl = "" ∧
    (handleReset s).analysis = none ∧
    (handleReset s).prompt = "" ∧
    (handleReset s).negativePrompt = "" ∧
    (handleReset s).bpm = 120 ∧
    (handleReset s).variations = [] ∧
    (handleReset s).selectedVariation = none ∧
    (handleReset s).mergedVideoUrl = "" ∧
    (handleReset s).error = "" :=
  ⟨rfl, rfl, rfl, rfl, rfl, rfl, rfl, rfl, rfl, rfl, rfl⟩

/-- C9: with a non-null video file and analysis, confirming a pick issues
exactly the merge request carrying the chosen variation's file identifier,
mix mode "social", and the analysis's segment sequence, with no `x-user-id`
header; on success the recorded `selectedVariation` equals the chosen
variation. -/
theorem pick_confirms_merge_request (s : HomeState) (f : File)
    (a : VideoAnalysis) (v : MusicVariation) (r : MergeResult)
    (hf : s.videoFile = some f) (ha : s.analysis = some a) :
    (handlePickVariation s v (.ok r)).2 =
      some (mergeVideoAudioRequest f v.file_id "social" a.segments) ∧
    (mergeVideoAudioRequest f v.file_id "social" a.segments).file_id =
      v.file_id ∧
    (mergeVideoAudioRequest f v.file_id "social" a.segments).mix_mode =
      "social" ∧
    (mergeVideoAudioRequest f v.file_id "social" a.segments).segments =
      a.segments ∧
    (∀ hd ∈ (mergeVideoAudioRequest f v.file_id "social" a.segments).headers,
      hd.1 ≠ "x-user-id") ∧
    (handlePickVariation s v (.ok r)).1.selectedVariation = some v := by
  refine ⟨?_, rfl, rfl, rfl, ?_, ?_⟩ <;>
    simp [handlePickVariation, hf, ha, mergeVideoAudioRequest]

/-- Witness for C9 at a concrete pick-step state. -/
theorem pick_confirms_merge_request_witness :
    pickState.videoFile = some sampleFile ∧
    pickState.analysis = some sampleAnalysis ∧
    (handlePickVariation pickState sampleVariation (.ok sampleMerge)).2 =
      some (mergeVideoAudioRequest sampleFile sampleVariation.file_id "social"
        sampleAnalysis.segments) ∧
    (handlePickVariation pickState sampleVariation
        (.ok sampleMerge)).1.selectedVariation = some sampleVariation := by
  refine ⟨rfl, rfl, ?_, ?_⟩
  · exact (pick_confirms_merge_request pickState sampleFile sampleAnalysis
      sampleVariation sampleMerge rfl rfl).1
  · exact (pick_confirms_merge_request pickState sampleFile sampleAnalysis
      sampleVariation sampleMerge rfl rfl).2.2.2.2.2

/-- C6: a file of an allowed MIME type, of size at most 50 MB, whose probed
duration is at most 30 s (boundaries included), passes validation with no
error displayed, and exactly one analyze call is issued, for that file. -/
theorem valid_file_uploads_once (file : File) (duration : ℚ)
    (userToken : String)
    (htype : file.type ∈ ALLOWED_TYPES)
    (hsize : file.size ≤ 50 * 1024 * 1024)
    (hdur : duration ≤ 30) :
    (handleFile file duration).validationError = "" ∧
    analyzeCalls (handleFile file duration) userToken =
      [analyzeVideoRequest file userToken] := by
  have hs : ¬ ((file.size : ℚ) / (1024 * 1024) > (MAX_SIZE_MB : ℚ)) := by
    rw [not_lt, div_le_iff₀ (by norm_num : (0:ℚ) < 1024 * 1024)]
    calc (file.size : ℚ) ≤ ((50 * 1024 * 1024 : Nat) : ℚ) := by
          exact_mod_cast hsize
      _ = (MAX_SIZE_MB : ℚ) * (1024 * 1024) := by norm_num [MAX_SIZE_MB]
  have hd : ¬ (duration > (MAX_DURATION_S : ℚ)) := by
    rw [not_lt]
    calc duration ≤ 30 := hdur
      _ = (MAX_DURATION_S : ℚ) := by norm_num [MAX_DURATION_S]
  constructor <;>
    simp [handleFile, validate, checkDuration, analyzeCalls, htype, hs, hd]

/-- Witness for C6: `clip.mp4`, 10 MB, 12 s. -/
theorem valid_file_uploads_once_witness :
    sampleFile.type ∈ ALLOWED_TYPES ∧
    sampleFile.size ≤ 50 * 1024 * 1024 ∧
    (12 : ℚ) ≤ 30 ∧
    (handleFile sampleFile 12).validationError = "" ∧
    analyzeCalls (handleFile sampleFile 12) "anonymous" =
      [analyzeVideoRequest sampleFile "anonymous"] := by
  refine ⟨by decide, by decide, by norm_num, ?_, ?_⟩
  · exact (valid_file_uploads_once sampleFile 12 "anonymous" (by decide)
      (by decide) (by norm_num)).1
  · exact (valid_file_uploads_once sampleFile 12 "anonymous" (by decide)
      (by decide) (by norm_num)).2

/-- C7: a file whose MIME type is outside the allowed set is rejected with
the message naming the allowed formats; the size and duration checks never
run, and no network call or upload intent is issued. -/
theorem bad_type_rejects_before_any_call (file : File) (duration : ℚ)
    (userToken : String) (h : file.type ∉ ALLOWED_TYPES) :
    handleFile file duration =
      { validationError := "Unsupported format. Use MP4, MOV, WebM, or AVI."
        durationProbed := false
        uploadCalls := [] } ∧
    containsStr "Unsupported format. Use MP4, MOV, WebM, or AVI." "MP4" ∧
    containsStr "Unsupported format. Use MP4, MOV, WebM, or AVI." "MOV" ∧
    containsStr "Unsupported format. Use MP4, MOV, WebM, or AVI." "WebM" ∧
    containsStr "Unsupported format. Use MP4, MOV, WebM, or AVI." "AVI" ∧
    analyzeCalls (handleFile file duration) userToken = [] := by
  refine ⟨?_,
    ⟨"Unsupported format. Use ", ", MOV, WebM, or AVI.", by decide⟩,
    ⟨"Unsupported format. Use MP4, ", ", WebM, or AVI.", by decide⟩,
    ⟨"Unsupported format. Use MP4, MOV, ", ", or AVI.", by decide⟩,
    ⟨"Unsupported format. Use MP4, MOV, WebM, or ", ".", by decide⟩, ?_⟩ <;>
    simp [handleFile, validate, analyzeCalls, h]

/-- Witness for C7: a PNG image file. -/
theorem bad_type_rejects_before_any_call_witness :
    samplePng.type ∉ ALLOWED_TYPES ∧
    handleFile samplePng 0 =
      { validationError := "Unsupported format. Use MP4, MOV, WebM, or AVI."
        durationProbed := false
        uploadCalls := [] } ∧
    analyzeCalls (handleFile samplePng 0) "anonymous" = [] := by
  refine ⟨by decide, ?_, ?_⟩
  · exact (bad_type_rejects_before_any_call samplePng 0 "anonymous"
      (by decide)).1
  · exact (bad_type_rejects_before_any_call samplePng 0 "anonymous"
      (by decide)).2.2.2.2.2

/-- C8: a file that passes the type and size checks but whose probed
duration exceeds 30 s is rejected with a message containing the measured
duration rounded to whole seconds and the 30 s ceiling, and no upload
intent (hence no analyze call) is issued. -/
theorem overlong_duration_rejects (file : File) (duration : ℚ)
    (userToken : String)
    (htype : file.type ∈ ALLOWED_TYPES)
    (hsize : file.size ≤ 50 * 1024 * 1024)
    (hdur : duration > 30) :
    handleFile file duration =
      { validationError := durationErrorMsg duration
        durationProbed := true
        uploadCalls := [] } ∧
    containsStr (durationErrorMsg duration) (toString (jsRound duration)) ∧
    containsStr (durationErrorMsg duration) (toString MAX_DURATION_S) ∧
    analyzeCalls (handleFile file duration) userToken = [] := by
  have hs : ¬ ((file.size : ℚ) / (1024 * 1024) > (MAX_SIZE_MB : ℚ)) := by
    rw [not_lt, div_le_iff₀ (by norm_num : (0:ℚ) < 1024 * 1024)]
    calc (file.size : ℚ) ≤ ((50 * 1024 * 1024 : Nat) : ℚ) := by
          exact_mod_cast hsize
      _ = (MAX_SIZE_MB : ℚ) * (1024 * 1024) := by norm_num [MAX_SIZE_MB]
  have hd : duration > (MAX_DURATION_S : ℚ) := by
    rw [show ((MAX_DURATION_S : ℚ)) = 30 from by norm_num [MAX_DURATION_S]]
    exact hdur
  refine ⟨?_,
    ⟨"Video is ", "s. Maximum is " ++ toString MAX_DURATION_S ++ "s.", by
      simp [durationErrorMsg, String.append_assoc]⟩,
    ⟨"Video is " ++ toString (jsRound duration) ++ "s. Maximum is ", "s.",
      rfl⟩, ?_⟩ <;>
    simp [handleFile, validate, checkDuration, analyzeCalls, htype, hs, hd]

/-- Witness for C8: an mp4 of 31.4 s; the displayed message rounds it to
31 s and names the 30 s ceiling. -/
theorem overlong_duration_rejects_witness :
    sampleFile.type ∈ ALLOWED_TYPES ∧
    sampleFile.size ≤ 50 * 1024 * 1024 ∧
    ((157 : ℚ) / 5) > 30 ∧
    handleFile sampleFile ((157 : ℚ) / 5) =
      { validationError := durationErrorMsg ((157 : ℚ) / 5)
        durationProbed := true
        uploadCalls := [] } ∧
    durationErrorMsg ((157 : ℚ) / 5) = "Video is 31s. Maximum is 30s." := by
  refine ⟨by decide, by decide, by norm_num, ?_, ?_⟩
  · exact (overlong_duration_rejects sampleFile ((157 : ℚ) / 5) "anonymous"
      (by decide) (by decide) (by norm_num)).1
  · have hj : jsRound ((157 : ℚ) / 5) = 31 := by norm_num [jsRound]
    simp only [durationErrorMsg, hj]
    rfl

/-- Helper: an element returned by `List.find?` is a member satisfying the
predicate. -/
theorem find?_spec {α : Type} (p : α → Bool) (vs : List α) (v : α)
    (h : vs.find? p = some v) : v ∈ vs ∧ p v = true := by
  induction vs with
  | nil => exact absurd h (by simp)
  | cons w t ih =>
    by_cases hw : p w
    · rw [List.find?_cons_of_pos _ hw] at h
      cases h
      exact ⟨List.mem_cons_self _ _, hw⟩
    · rw [List.find?_cons_of_neg _ hw] at h
      obtain ⟨hm, hp⟩ := ih h
      exact ⟨List.mem_cons_of_mem _ hm, hp⟩

/-- Helper: `handleSelect` is `List.find?` on the selection. -/
theorem handleSelect_eq_find (vs : List MusicVariation) (s : PickerState) :
    handleSelect vs s = vs.find? (fun v => v.file_id == s.selected) := by
  unfold handleSelect
  cases vs.find? (fun v => v.file_id == s.selected) <;> rfl

/-- C10: in the variation picker, the selection is always the empty string
or the file identifier of a list member: it starts as the first member's
file identifier (empty string for an empty list), play-toggling a variation
also selects it, `onPick` is only ever invoked with a list member whose
file identifier equals the current selection, and confirming with an empty
list is a no-op. -/
theorem picker_selection_invariant :
    (∀ vs : List MusicVariation,
      SelectedInList vs (initPicker vs) ∧ PlayingSelected (initPicker vs)) ∧
    (∀ (v : MusicVariation) (vs : List MusicVariation),
      (initPicker (v :: vs)).selected = v.file_id) ∧
    ((initPicker []).selected = "") ∧
    (∀ (vs : List MusicVariation) (s : PickerState) (v : MusicVariation),
      v ∈ vs → SelectedInList vs s → PlayingSelected s →
      SelectedInList vs (togglePlay s v) ∧ PlayingSelected (togglePlay s v)) ∧
    (∀ (s : PickerState) (v : MusicVariation), PlayingSelected s →
      (togglePlay s v).selected = v.file_id) ∧
    (∀ (vs : List MusicVariation) (s : PickerState) (v : MusicVariation),
      handleSelect vs s = some v → v ∈ vs ∧ v.file_id = s.selected) ∧
    (∀ s : PickerState, handleSelect [] s = none) := by
  refine ⟨?_, fun v vs => rfl, rfl, ?_, ?_, ?_, fun s => rfl⟩
  · intro vs
    constructor
    · cases vs with
      | nil => exact Or.inl rfl
      | cons v t => exact Or.inr ⟨v, List.mem_cons_self v t, rfl⟩
    · intro p hp
      simp [initPicker] at hp
  · intro vs s v hv hsel hplay
    unfold togglePlay
    by_cases h : s.playing = some v.file_id
    · rw [if_pos h]
      refine ⟨hsel, ?_⟩
      intro p hp
      simp at hp
    · rw [if_neg h]
      refine ⟨Or.inr ⟨v, hv, rfl⟩, ?_⟩
      intro p hp
      exact Option.some.inj hp
  · intro s v hplay
    unfold togglePlay
    by_cases h : s.playing = some v.file_id
    · rw [if_pos h]
      exact hplay v.file_id h
    · rw [if_neg h]
  · intro vs s v h
    rw [handleSelect_eq_find] at h
    obtain ⟨hm, hp⟩ := find?_spec _ vs v h
    exact ⟨hm, eq_of_beq (by simpa using hp)⟩

/-- Witness for C10 at a one-element variation list. -/
theorem picker_selection_invariant_witness :
    sampleVariation ∈ [sampleVariation] ∧
    SelectedInList [sampleVariation] samplePicker ∧
    PlayingSelected samplePicker ∧
    SelectedInList [sampleVariation] (togglePlay samplePicker sampleVariation) ∧
    (togglePlay samplePicker sampleVariation).selected =
      sampleVariation.file_id ∧
    (sampleVariation ∈ [sampleVariation] ∧
      sampleVariation.file_id = samplePicker.selected) := by
  have h := picker_selection_invariant
  have hinit := h.1 [sampleVariation]
  refine ⟨List.mem_cons_self _ _, hinit.1, hinit.2, ?_, ?_, ?_⟩
  · exact (h.2.2.2.1 [sampleVariation] samplePicker sampleVariation
      (List.mem_cons_self _ _) hinit.1 hinit.2).1
  · exact h.2.2.2.2.1 samplePicker sampleVariation hinit.2
  · exact h.2.2.2.2.2.1 [sampleVariation] samplePicker sampleVariation rfl

end VibeSync
